import Mathlib

/-!
Shallow embedding of the `GarminStats` caching data-access layer
(`src/garmin_stats/__init__.py` of the garmin-insights repository).

The Python class holds three payload slots (`_stats_cache`, `_sleep_cache`,
`_steps_cache`), one shared `_cache_date`, and a default date `date_str`.
Mutable object state is modelled as an explicit `State` record threaded
through the operations; the remote Garmin service is an oracle `Remote`
whose calls return `Except ε α` (an `Except.error` models a raised Python
exception).  Each data operation returns the Python result (or the
propagated exception), the updated object state, and the number of remote
fetches the call issued, so memoization claims can be stated as fetch
counts.

The lazily created authenticated client (`@cached_property client`) is
modelled separately: the environment is a record of the relevant
environment variables, the memo slot of `cached_property` is an explicit
`Option`, and the externally visible effects (constructing the client,
the `login()` handshake, dumping the session token) are recorded as an
event trace.
-/

namespace GarminStats

/-- The remote Garmin service, as seen through `self.client`: one endpoint
per data kind, each either returning a payload or raising. -/
structure Remote (ε α : Type) where
  get_stats : String → Except ε α
  get_steps_data : String → Except ε α
  get_sleep_data : String → Except ε α

/-- The mutable state of one `GarminStats` instance: the instance date and
the four cache fields set up in `__init__`. -/
structure State (α : Type) where
  date_str : String
  stats_cache : Option α
  sleep_cache : Option α
  steps_cache : Option α
  cache_date : Option String
deriving DecidableEq, Repr

/-- `__init__(date_str)`: all cache fields start as `None`. -/
def State.init (date_str : String) : State α :=
  { date_str := date_str, stats_cache := none, sleep_cache := none,
    steps_cache := none, cache_date := none }

/-- `_is_cache_valid`: the shared cache date equals the target date and the
stats slot is populated. -/
def State.is_cache_valid (s : State α) (target_date : String) : Bool :=
  s.cache_date == some target_date && s.stats_cache.isSome

/-- `_is_sleep_cache_valid`. -/
def State.is_sleep_cache_valid (s : State α) (target_date : String) : Bool :=
  s.cache_date == some target_date && s.sleep_cache.isSome

/-- `_is_steps_cache_valid`. -/
def State.is_steps_cache_valid (s : State α) (target_date : String) : Bool :=
  s.cache_date == some target_date && s.steps_cache.isSome

theorem stats_isSome_of_valid {s : State α} {d : String}
    (h : s.is_cache_valid d = true) : s.stats_cache.isSome := by
  simp only [State.is_cache_valid, Bool.and_eq_true] at h
  exact h.2

theorem sleep_isSome_of_valid {s : State α} {d : String}
    (h : s.is_sleep_cache_valid d = true) : s.sleep_cache.isSome := by
  simp only [State.is_sleep_cache_valid, Bool.and_eq_true] at h
  exact h.2

theorem steps_isSome_of_valid {s : State α} {d : String}
    (h : s.is_steps_cache_valid d = true) : s.steps_cache.isSome := by
  simp only [State.is_steps_cache_valid, Bool.and_eq_true] at h
  exact h.2

/-- `get_stats(date_str?)`: serve the stats slot on a valid cache, otherwise
fetch, store the payload, stamp the shared cache date.  On a raised fetch
the exception propagates and the state is unchanged (in Python the
right-hand side raises before any assignment happens).  The `Nat` counts
remote fetches issued by this call. -/
def get_stats (remote : Remote ε α) (s : State α) (date_str : Option String) :
    Except ε α × State α × Nat :=
  let target_date := date_str.getD s.date_str
  if h : s.is_cache_valid target_date = true then
    (Except.ok (s.stats_cache.get (stats_isSome_of_valid h)), s, 0)
  else
    match remote.get_stats target_date with
    | Except.ok v =>
        (Except.ok v,
         { s with stats_cache := some v, cache_date := some target_date }, 1)
    | Except.error e => (Except.error e, s, 1)

/-- `get_steps_data(date_str?)`: same shape as `get_stats`, on the steps
slot. -/
def get_steps_data (remote : Remote ε α) (s : State α) (date_str : Option String) :
    Except ε α × State α × Nat :=
  let target_date := date_str.getD s.date_str
  if h : s.is_steps_cache_valid target_date = true then
    (Except.ok (s.steps_cache.get (steps_isSome_of_valid h)), s, 0)
  else
    match remote.get_steps_data target_date with
    | Except.ok v =>
        (Except.ok v,
         { s with steps_cache := some v, cache_date := some target_date }, 1)
    | Except.error e => (Except.error e, s, 1)

/-- `get_sleep_data(date_str?)`: same shape as `get_stats`, on the sleep
slot. -/
def get_sleep_data (remote : Remote ε α) (s : State α) (date_str : Option String) :
    Except ε α × State α × Nat :=
  let target_date := date_str.getD s.date_str
  if h : s.is_sleep_cache_valid target_date = true then
    (Except.ok (s.sleep_cache.get (sleep_isSome_of_valid h)), s, 0)
  else
    match remote.get_sleep_data target_date with
    | Except.ok v =>
        (Except.ok v,
         { s with sleep_cache := some v, cache_date := some target_date }, 1)
    | Except.error e => (Except.error e, s, 1)

/-- `clear_cache()`: reset the three payload slots and the shared cache
date. -/
def clear_cache (s : State α) : State α :=
  { s with stats_cache := none, sleep_cache := none, steps_cache := none,
           cache_date := none }

/-- `update_date(date_str)`: set the instance date, then `clear_cache()`. -/
def update_date (s : State α) (date_str : String) : State α :=
  clear_cache { s with date_str := date_str }

/-- `refresh_data(date_str?)`: clear the cache, then call `get_stats`,
`get_sleep_data` and `get_steps_data` for the resolved date; any raised
fetch propagates (the remaining calls are skipped).  The `Nat` is the
total number of remote fetches issued. -/
def refresh_data (remote : Remote ε α) (s : State α) (date_str : Option String) :
    Except ε Unit × State α × Nat :=
  let target_date := date_str.getD s.date_str
  match get_stats remote (clear_cache s) (some target_date) with
  | (Except.error e, s1, n1) => (Except.error e, s1, n1)
  | (Except.ok _, s1, n1) =>
    match get_sleep_data remote s1 (some target_date) with
    | (Except.error e, s2, n2) => (Except.error e, s2, n1 + n2)
    | (Except.ok _, s2, n2) =>
      match get_steps_data remote s2 (some target_date) with
      | (Except.error e, s3, n3) => (Except.error e, s3, n1 + n2 + n3)
      | (Except.ok _, s3, n3) => (Except.ok (), s3, n1 + n2 + n3)

/-- The dictionary returned by the `cache_info` property. -/
structure CacheInfo where
  cache_date : Option String
  has_stats_cache : Bool
  has_sleep_cache : Bool
  has_steps_cache : Bool
  instance_date : String
deriving DecidableEq, Repr

/-- `cache_info`: read-only introspection of the cache state. -/
def cache_info (s : State α) : CacheInfo :=
  { cache_date := s.cache_date,
    has_stats_cache := s.stats_cache.isSome,
    has_sleep_cache := s.sleep_cache.isSome,
    has_steps_cache := s.steps_cache.isSome,
    instance_date := s.date_str }

/-- The process environment variables read by the `client` property. -/
structure ClientEnv where
  garmin_email : Option String
  garmin_password : Option String
  garth_home : Option String
deriving DecidableEq, Repr

/-- Python truthiness of `os.getenv(...)`: `None` and the empty string are
falsy. -/
def truthy : Option String → Bool
  | none => false
  | some s => !s.isEmpty

/-- The remediation message raised when credentials are missing (verbatim
from the source; it names the environment variables to set). -/
def credentialsErrorMessage : String :=
  "Garmin credentials not found. Please set environment variables:\n" ++
  "export GARMIN_EMAIL=\x27your_email@example.com\x27\n" ++
  "export GARMIN_PASSWORD=\x27your_password\x27\n" ++
  "Or create a .env file with these variables."

/-- The constructed `Garmin(email, password)` connection object. -/
structure Garmin where
  email : String
  password : String
deriving DecidableEq, Repr

/-- Externally visible effects of the `client` property body: constructing
the connection, the `login()` authentication handshake, and dumping the
session token to `GARTH_HOME`. -/
inductive ClientEvent
  | construct (email password : String)
  | login
  | dump (path : String)
deriving DecidableEq, Repr

/-- The body of the `client` property (what `cached_property` evaluates on
a miss).  `loginResult` is the outcome of the `login()` handshake with the
remote service.  Returns the result (or the raised error) together with
the trace of remote-facing effects, in order. -/
def computeClient (env : ClientEnv) (loginResult : Except String Unit) :
    Except String Garmin × List ClientEvent :=
  if !truthy env.garmin_email || !truthy env.garmin_password then
    (Except.error credentialsErrorMessage, [])
  else
    let email := env.garmin_email.getD ""
    let password := env.garmin_password.getD ""
    match loginResult with
    | Except.error e =>
        (Except.error e, [ClientEvent.construct email password, ClientEvent.login])
    | Except.ok _ =>
        (Except.ok { email := email, password := password },
         [ClientEvent.construct email password, ClientEvent.login,
          ClientEvent.dump (env.garth_home.getD "~/.garth")])

/-- The memo slot `cached_property` keeps in the instance `__dict__`. -/
structure ClientSlot where
  memo : Option Garmin
deriving DecidableEq, Repr

/-- One access to the `client` property under `cached_property` semantics:
a populated memo is returned with no effects; otherwise the property body
runs, and only a successful result is memoized (a raised exception leaves
the slot empty). -/
def clientAccess (env : ClientEnv) (loginResult : Except String Unit)
    (cs : ClientSlot) : Except String Garmin × ClientSlot × List ClientEvent :=
  match cs.memo with
  | some c => (Except.ok c, cs, [])
  | none =>
    match computeClient env loginResult with
    | (Except.ok c, evs) => (Except.ok c, { memo := some c }, evs)
    | (Except.error e, evs) => (Except.error e, cs, evs)

/-- A concrete environment for witnesses: both credentials set,
`GARTH_HOME` unset. -/
def demoEnv : ClientEnv :=
  { garmin_email := some "user@example.com", garmin_password := some "hunter2",
    garth_home := none }

/-- The client `demoEnv` produces. -/
def demoGarmin : Garmin :=
  { email := "user@example.com", password := "hunter2" }

/-- A concrete remote for witnesses: every endpoint succeeds with a string
payload tagging the endpoint and the requested date. -/
def demoRemote : Remote String String :=
  { get_stats := fun d => Except.ok ("stats:" ++ d),
    get_steps_data := fun d => Except.ok ("steps:" ++ d),
    get_sleep_data := fun d => Except.ok ("sleep:" ++ d) }

/-- A concrete remote whose every endpoint raises. -/
def failingRemote : Remote String String :=
  { get_stats := fun d => Except.error ("stats down:" ++ d),
    get_steps_data := fun d => Except.error ("steps down:" ++ d),
    get_sleep_data := fun d => Except.error ("sleep down:" ++ d) }

/-- A concrete remote returning empty-dictionary (Python-falsy) payloads. -/
def emptyRemote : Remote String (List (String × Nat)) :=
  { get_stats := fun _ => Except.ok [],
    get_steps_data := fun _ => Except.ok [],
    get_sleep_data := fun _ => Except.ok [] }

section Helpers

variable {ε α : Type} (remote : Remote ε α) (s : State α) (d? : Option String)

theorem get_stats_hit (h : s.is_cache_valid (d?.getD s.date_str) = true) :
    get_stats remote s d? =
      (Except.ok (s.stats_cache.get (stats_isSome_of_valid h)), s, 0) := by
  unfold get_stats
  rw [dif_pos h]

theorem get_stats_fetch {v : α} (h : s.is_cache_valid (d?.getD s.date_str) = false)
    (hr : remote.get_stats (d?.getD s.date_str) = Except.ok v) :
    get_stats remote s d? =
      (Except.ok v,
       { s with stats_cache := some v, cache_date := some (d?.getD s.date_str) }, 1) := by
  unfold get_stats
  rw [dif_neg (by simp [h]), hr]

theorem get_stats_raise {e : ε} (h : s.is_cache_valid (d?.getD s.date_str) = false)
    (hr : remote.get_stats (d?.getD s.date_str) = Except.error e) :
    get_stats remote s d? = (Except.error e, s, 1) := by
  unfold get_stats
  rw [dif_neg (by simp [h]), hr]

theorem get_sleep_hit (h : s.is_sleep_cache_valid (d?.getD s.date_str) = true) :
    get_sleep_data remote s d? =
      (Except.ok (s.sleep_cache.get (sleep_isSome_of_valid h)), s, 0) := by
  unfold get_sleep_data
  rw [dif_pos h]

theorem get_sleep_fetch {v : α} (h : s.is_sleep_cache_valid (d?.getD s.date_str) = false)
    (hr : remote.get_sleep_data (d?.getD s.date_str) = Except.ok v) :
    get_sleep_data remote s d? =
      (Except.ok v,
       { s with sleep_cache := some v, cache_date := some (d?.getD s.date_str) }, 1) := by
  unfold get_sleep_data
  rw [dif_neg (by simp [h]), hr]

theorem get_sleep_raise {e : ε} (h : s.is_sleep_cache_valid (d?.getD s.date_str) = false)
    (hr : remote.get_sleep_data (d?.getD s.date_str) = Except.error e) :
    get_sleep_data remote s d? = (Except.error e, s, 1) := by
  unfold get_sleep_data
  rw [dif_neg (by simp [h]), hr]

theorem get_steps_hit (h : s.is_steps_cache_valid (d?.getD s.date_str) = true) :
    get_steps_data remote s d? =
      (Except.ok (s.steps_cache.get (steps_isSome_of_valid h)), s, 0) := by
  unfold get_steps_data
  rw [dif_pos h]

theorem get_steps_fetch {v : α} (h : s.is_steps_cache_valid (d?.getD s.date_str) = false)
    (hr : remote.get_steps_data (d?.getD s.date_str) = Except.ok v) :
    get_steps_data remote s d? =
      (Except.ok v,
       { s with steps_cache := some v, cache_date := some (d?.getD s.date_str) }, 1) := by
  unfold get_steps_data
  rw [dif_neg (by simp [h]), hr]

theorem get_steps_raise {e : ε} (h : s.is_steps_cache_valid (d?.getD s.date_str) = false)
    (hr : remote.get_steps_data (d?.getD s.date_str) = Except.error e) :
    get_steps_data remote s d? = (Except.error e, s, 1) := by
  unfold get_steps_data
  rw [dif_neg (by simp [h]), hr]

theorem get_stats_count_one (h : s.is_cache_valid (d?.getD s.date_str) = false) :
    (get_stats remote s d?).2.2 = 1 := by
  cases hr : remote.get_stats (d?.getD s.date_str) with
  | ok v => rw [get_stats_fetch remote s d? h hr]
  | error e => rw [get_stats_raise remote s d? h hr]

theorem get_sleep_count_one (h : s.is_sleep_cache_valid (d?.getD s.date_str) = false) :
    (get_sleep_data remote s d?).2.2 = 1 := by
  cases hr : remote.get_sleep_data (d?.getD s.date_str) with
  | ok v => rw [get_sleep_fetch remote s d? h hr]
  | error e => rw [get_sleep_raise remote s d? h hr]

theorem get_steps_count_one (h : s.is_steps_cache_valid (d?.getD s.date_str) = false) :
    (get_steps_data remote s d?).2.2 = 1 := by
  cases hr : remote.get_steps_data (d?.getD s.date_str) with
  | ok v => rw [get_steps_fetch remote s d? h hr]
  | error e => rw [get_steps_raise remote s d? h hr]

theorem sleep_invalid_of_none (s : State α) (d : String) (h : s.sleep_cache = none) :
    s.is_sleep_cache_valid d = false := by
  simp [State.is_sleep_cache_valid, h]

theorem steps_invalid_of_none (s : State α) (d : String) (h : s.steps_cache = none) :
    s.is_steps_cache_valid d = false := by
  simp [State.is_steps_cache_valid, h]

theorem fetched_stats_valid (s : State α) (t : String) (v : α) :
    ({ s with stats_cache := some v, cache_date := some t } : State α).is_cache_valid t = true := by
  simp [State.is_cache_valid]

theorem fetched_sleep_valid (s : State α) (t : String) (v : α) :
    ({ s with sleep_cache := some v, cache_date := some t } : State α).is_sleep_cache_valid t = true := by
  simp [State.is_sleep_cache_valid]

theorem get_stats_success_sets_cache_date {r : α}
    (hc : (get_stats remote s d?).2.2 = 1)
    (hok : (get_stats remote s d?).1 = Except.ok r) :
    (get_stats remote s d?).2.1.cache_date = some (d?.getD s.date_str) := by
  cases hv : s.is_cache_valid (d?.getD s.date_str) with
  | true => rw [get_stats_hit remote s d? hv] at hc; exact absurd hc (by simp)
  | false =>
    cases hr : remote.get_stats (d?.getD s.date_str) with
    | error e => rw [get_stats_raise remote s d? hv hr] at hok; exact absurd hok (by simp)
    | ok v => rw [get_stats_fetch remote s d? hv hr]

theorem get_sleep_success_sets_cache_date {r : α}
    (hc : (get_sleep_data remote s d?).2.2 = 1)
    (hok : (get_sleep_data remote s d?).1 = Except.ok r) :
    (get_sleep_data remote s d?).2.1.cache_date = some (d?.getD s.date_str) := by
  cases hv : s.is_sleep_cache_valid (d?.getD s.date_str) with
  | true => rw [get_sleep_hit remote s d? hv] at hc; exact absurd hc (by simp)
  | false =>
    cases hr : remote.get_sleep_data (d?.getD s.date_str) with
    | error e => rw [get_sleep_raise remote s d? hv hr] at hok; exact absurd hok (by simp)
    | ok v => rw [get_sleep_fetch remote s d? hv hr]

theorem get_steps_success_sets_cache_date {r : α}
    (hc : (get_steps_data remote s d?).2.2 = 1)
    (hok : (get_steps_data remote s d?).1 = Except.ok r) :
    (get_steps_data remote s d?).2.1.cache_date = some (d?.getD s.date_str) := by
  cases hv : s.is_steps_cache_valid (d?.getD s.date_str) with
  | true => rw [get_steps_hit remote s d? hv] at hc; exact absurd hc (by simp)
  | false =>
    cases hr : remote.get_steps_data (d?.getD s.date_str) with
    | error e => rw [get_steps_raise remote s d? hv hr] at hok; exact absurd hok (by simp)
    | ok v => rw [get_steps_fetch remote s d? hv hr]

theorem get_stats_idem {r : α} (h : (get_stats remote s d?).1 = Except.ok r) :
    get_stats remote (get_stats remote s d?).2.1 d? =
      (Except.ok r, (get_stats remote s d?).2.1, 0) := by
  cases hv : s.is_cache_valid (d?.getD s.date_str) with
  | true =>
    rw [get_stats_hit remote s d? hv] at h ⊢
    rw [get_stats_hit remote s d? hv]
    simpa using h
  | false =>
    cases hr : remote.get_stats (d?.getD s.date_str) with
    | error e => rw [get_stats_raise remote s d? hv hr] at h; exact absurd h (by simp)
    | ok v =>
      rw [get_stats_fetch remote s d? hv hr] at h ⊢
      rw [get_stats_hit remote _ d? (fetched_stats_valid s (d?.getD s.date_str) v)]
      simpa using h

theorem get_sleep_idem {r : α} (h : (get_sleep_data remote s d?).1 = Except.ok r) :
    get_sleep_data remote (get_sleep_data remote s d?).2.1 d? =
      (Except.ok r, (get_sleep_data remote s d?).2.1, 0) := by
  cases hv : s.is_sleep_cache_valid (d?.getD s.date_str) with
  | true =>
    rw [get_sleep_hit remote s d? hv] at h ⊢
    rw [get_sleep_hit remote s d? hv]
    simpa using h
  | false =>
    cases hr : remote.get_sleep_data (d?.getD s.date_str) with
    | error e => rw [get_sleep_raise remote s d? hv hr] at h; exact absurd h (by simp)
    | ok v =>
      rw [get_sleep_fetch remote s d? hv hr] at h ⊢
      rw [get_sleep_hit remote _ d? (fetched_sleep_valid s (d?.getD s.date_str) v)]
      simpa using h

end Helpers

/-- Claim C2: for a fixed instance and a fixed (kind, date) key, two
consecutive successful `get_stats` (resp. `get_sleep_data`) calls with
nothing in between issue exactly one remote fetch: the first call (on a
key not yet cached) fetches once and returns the remote payload, and the
second call performs no fetch and returns the identical payload, leaving
the state unchanged. -/
theorem consecutive_gets_fetch_once {ε α : Type}
    (remote : Remote ε α) (s : State α) (d? : Option String) (v w : α)
    (hsv : s.is_cache_valid (d?.getD s.date_str) = false)
    (hlv : s.is_sleep_cache_valid (d?.getD s.date_str) = false)
    (hrs : remote.get_stats (d?.getD s.date_str) = Except.ok v)
    (hrl : remote.get_sleep_data (d?.getD s.date_str) = Except.ok w) :
    ((get_stats remote s d?).1 = Except.ok v ∧
     (get_stats remote s d?).2.2 = 1 ∧
     get_stats remote (get_stats remote s d?).2.1 d? =
       (Except.ok v, (get_stats remote s d?).2.1, 0)) ∧
    ((get_sleep_data remote s d?).1 = Except.ok w ∧
     (get_sleep_data remote s d?).2.2 = 1 ∧
     get_sleep_data remote (get_sleep_data remote s d?).2.1 d? =
       (Except.ok w, (get_sleep_data remote s d?).2.1, 0)) := by
  have h1 := get_stats_fetch remote s d? hsv hrs
  have h2 := get_sleep_fetch remote s d? hlv hrl
  exact ⟨⟨by rw [h1], by rw [h1], get_stats_idem remote s d? (by rw [h1])⟩,
         ⟨by rw [h2], by rw [h2], get_sleep_idem remote s d? (by rw [h2])⟩⟩

/-- Claim C2 witness: a fresh instance for 2024-06-01 against the demo
remote. -/
theorem consecutive_gets_fetch_once_witness :
    ((get_stats demoRemote (State.init "2024-06-01") none).1 =
       Except.ok "stats:2024-06-01" ∧
     (get_stats demoRemote (State.init "2024-06-01") none).2.2 = 1 ∧
     get_stats demoRemote (get_stats demoRemote (State.init "2024-06-01") none).2.1 none =
       (Except.ok "stats:2024-06-01",
        (get_stats demoRemote (State.init "2024-06-01") none).2.1, 0)) ∧
    ((get_sleep_data demoRemote (State.init "2024-06-01") none).1 =
       Except.ok "sleep:2024-06-01" ∧
     (get_sleep_data demoRemote (State.init "2024-06-01") none).2.2 = 1 ∧
     get_sleep_data demoRemote
         (get_sleep_data demoRemote (State.init "2024-06-01") none).2.1 none =
       (Except.ok "sleep:2024-06-01",
        (get_sleep_data demoRemote (State.init "2024-06-01") none).2.1, 0)) :=
  consecutive_gets_fetch_once demoRemote (State.init "2024-06-01") none
    "stats:2024-06-01" "sleep:2024-06-01" rfl rfl rfl rfl

/-- Claim C5: the cache layer caches whatever payload the remote returned,
empty or not: whenever a `get_stats` (resp. `get_sleep_data`) call returns
a payload R, an immediately following call for the same key returns R with
no remote fetch and no state change — with no condition on R. -/
theorem any_returned_payload_is_cached {ε α : Type}
    (remote : Remote ε α) (s : State α) (d? : Option String) (r u : α)
    (hs : (get_stats remote s d?).1 = Except.ok r)
    (hl : (get_sleep_data remote s d?).1 = Except.ok u) :
    get_stats remote (get_stats remote s d?).2.1 d? =
      (Except.ok r, (get_stats remote s d?).2.1, 0) ∧
    get_sleep_data remote (get_sleep_data remote s d?).2.1 d? =
      (Except.ok u, (get_sleep_data remote s d?).2.1, 0) :=
  ⟨get_stats_idem remote s d? hs, get_sleep_idem remote s d? hl⟩

/-- Claim C5 witness: the remote returns the empty dictionary (a falsy
payload in Python); the repeat call still serves it from cache with zero
fetches. -/
theorem any_returned_payload_is_cached_witness :
    get_stats emptyRemote (get_stats emptyRemote (State.init "2024-06-01") none).2.1 none =
      (Except.ok [], (get_stats emptyRemote (State.init "2024-06-01") none).2.1, 0) ∧
    get_sleep_data emptyRemote
        (get_sleep_data emptyRemote (State.init "2024-06-01") none).2.1 none =
      (Except.ok [], (get_sleep_data emptyRemote (State.init "2024-06-01") none).2.1, 0) :=
  any_returned_payload_is_cached emptyRemote (State.init "2024-06-01") none [] [] rfl rfl

/-- Claim C1 (violated by the code): on one instance, fetch stats for
2024-01-01, then sleep for 2024-01-02 (which stamps the shared cache date
with 2024-01-02), then call `get_stats("2024-01-02")`: the call is a cache
hit that performs no remote fetch and returns the payload that was fetched
for 2024-01-01 — not the remote's stats for 2024-01-02. -/
theorem get_stats_serves_stale_date_payload :
    get_stats demoRemote
      (get_sleep_data demoRemote
        (get_stats demoRemote (State.init "2024-01-01") (some "2024-01-01")).2.1
        (some "2024-01-02")).2.1
      (some "2024-01-02") =
    (Except.ok "stats:2024-01-01",
     (get_sleep_data demoRemote
        (get_stats demoRemote (State.init "2024-01-01") (some "2024-01-01")).2.1
        (some "2024-01-02")).2.1, 0) ∧
    demoRemote.get_stats "2024-01-02" = Except.ok "stats:2024-01-02" ∧
    ("stats:2024-01-01" : String) ≠ "stats:2024-01-02" := by
  exact ⟨rfl, rfl, by decide⟩

/-- Claim C3 counterexample: `refresh_data` on a fresh instance issues
three remote fetches (stats, sleep and steps endpoints), not exactly
two. -/
theorem refresh_data_issues_three_fetches_not_two :
    (refresh_data demoRemote (State.init "2024-06-01") none).2.2 = 3 ∧
    (refresh_data demoRemote (State.init "2024-06-01") none).2.2 ≠ 2 := by
  exact ⟨by decide, by decide⟩

/-- Claim C3 (amended): `refresh_data(D)` first clears the cache and then
eagerly re-fetches all three kinds (daily-summary, sleep and steps) for
the resolved date, issuing fresh remote fetches even when entries were
already cached for D, for a total of exactly three remote calls;
afterwards all three slots hold the freshly fetched payloads and the
shared cache date is D. -/
theorem refresh_data_refetches_all_three_kinds {ε α : Type}
    (remote : Remote ε α) (s : State α) (d? : Option String) (v w u : α)
    (h1 : remote.get_stats (d?.getD s.date_str) = Except.ok v)
    (h2 : remote.get_sleep_data (d?.getD s.date_str) = Except.ok w)
    (h3 : remote.get_steps_data (d?.getD s.date_str) = Except.ok u) :
    refresh_data remote s d? =
      (Except.ok (),
       { date_str := s.date_str, stats_cache := some v, sleep_cache := some w,
         steps_cache := some u, cache_date := some (d?.getD s.date_str) }, 3) := by
  have e1 := get_stats_fetch remote (clear_cache s) (some (d?.getD s.date_str)) rfl h1
  have e2 := get_sleep_fetch remote ({ clear_cache s with stats_cache := some v, cache_date := some (d?.getD s.date_str) }) (some (d?.getD s.date_str)) (sleep_invalid_of_none _ _ rfl) h2
  have e3 := get_steps_fetch remote ({ clear_cache s with stats_cache := some v, sleep_cache := some w, cache_date := some (d?.getD s.date_str) }) (some (d?.getD s.date_str)) (steps_invalid_of_none _ _ rfl) h3
  simp only [refresh_data, Option.getD_some, clear_cache] at e1 e2 e3 ⊢
  simp only [e1]
  simp only [e2]
  simp only [e3]

/-- Claim C3 (amended) witness: the demo remote on a fresh instance. -/
theorem refresh_data_refetches_all_three_kinds_witness :
    refresh_data demoRemote (State.init "2024-06-01") none =
      (Except.ok (),
       { date_str := "2024-06-01", stats_cache := some "stats:2024-06-01",
         sleep_cache := some "sleep:2024-06-01",
         steps_cache := some "steps:2024-06-01",
         cache_date := some "2024-06-01" }, 3) :=
  refresh_data_refetches_all_three_kinds demoRemote (State.init "2024-06-01") none
    "stats:2024-06-01" "sleep:2024-06-01" "steps:2024-06-01" rfl rfl rfl

/-- Claim C6: `update_date(D2)` sets the instance date to D2 and
unconditionally clears the whole cache (all kinds, whatever date was
cached): afterwards `cache_info` reports no cached entries and instance
date D2, and a following `get_stats()` with no date argument issues one
remote fetch whose outcome is the remote's answer for D2. -/
theorem update_date_sets_date_and_clears_cache {ε α : Type}
    (remote : Remote ε α) (s : State α) (d2 : String) :
    update_date s d2 =
      { date_str := d2, stats_cache := none, sleep_cache := none,
        steps_cache := none, cache_date := none } ∧
    cache_info (update_date s d2) =
      { cache_date := none, has_stats_cache := false, has_sleep_cache := false,
        has_steps_cache := false, instance_date := d2 } ∧
    (get_stats remote (update_date s d2) none).2.2 = 1 ∧
    (get_stats remote (update_date s d2) none).1 = remote.get_stats d2 := by
  refine ⟨rfl, rfl, get_stats_count_one remote _ none rfl, ?_⟩
  cases hr : remote.get_stats d2 with
  | ok v => rw [get_stats_fetch remote (update_date s d2) none rfl hr]
  | error e => rw [get_stats_raise remote (update_date s d2) none rfl hr]

/-- Claim C7: `clear_cache()` removes every cached entry and the cache
date, leaves the instance date unchanged, is idempotent, and afterwards
`cache_info` reports nothing cached and every kind issues a fresh remote
fetch on next access. -/
theorem clear_cache_empties_and_is_idempotent {ε α : Type}
    (remote : Remote ε α) (s : State α) (d : String) :
    clear_cache s =
      { date_str := s.date_str, stats_cache := none, sleep_cache := none,
        steps_cache := none, cache_date := none } ∧
    clear_cache (clear_cache s) = clear_cache s ∧
    (clear_cache s).date_str = s.date_str ∧
    cache_info (clear_cache s) =
      { cache_date := none, has_stats_cache := false, has_sleep_cache := false,
        has_steps_cache := false, instance_date := s.date_str } ∧
    (get_stats remote (clear_cache s) (some d)).2.2 = 1 ∧
    (get_sleep_data remote (clear_cache s) (some d)).2.2 = 1 ∧
    (get_steps_data remote (clear_cache s) (some d)).2.2 = 1 :=
  ⟨rfl, rfl, rfl, rfl,
   get_stats_count_one remote _ (some d) rfl,
   get_sleep_count_one remote _ (some d) rfl,
   get_steps_count_one remote _ (some d) rfl⟩

/-- Claim C4: when the remote fetch inside `get_stats` (resp.
`get_sleep_data`, `get_steps_data`) raises, the whole cache state (all
payload slots and the cache date) is exactly as before the call, the same
error propagates to the caller, and a retry for the same date issues a new
remote fetch instead of serving a cached failure. -/
theorem fetch_error_leaves_cache_unchanged {ε α : Type}
    (remote : Remote ε α) (s : State α) (d? : Option String) (e1 e2 e3 : ε)
    (hv1 : s.is_cache_valid (d?.getD s.date_str) = false)
    (hv2 : s.is_sleep_cache_valid (d?.getD s.date_str) = false)
    (hv3 : s.is_steps_cache_valid (d?.getD s.date_str) = false)
    (hr1 : remote.get_stats (d?.getD s.date_str) = Except.error e1)
    (hr2 : remote.get_sleep_data (d?.getD s.date_str) = Except.error e2)
    (hr3 : remote.get_steps_data (d?.getD s.date_str) = Except.error e3) :
    get_stats remote s d? = (Except.error e1, s, 1) ∧
    get_sleep_data remote s d? = (Except.error e2, s, 1) ∧
    get_steps_data remote s d? = (Except.error e3, s, 1) ∧
    (get_stats remote (get_stats remote s d?).2.1 d?).2.2 = 1 ∧
    (get_sleep_data remote (get_sleep_data remote s d?).2.1 d?).2.2 = 1 ∧
    (get_steps_data remote (get_steps_data remote s d?).2.1 d?).2.2 = 1 := by
  have a1 := get_stats_raise remote s d? hv1 hr1
  have a2 := get_sleep_raise remote s d? hv2 hr2
  have a3 := get_steps_raise remote s d? hv3 hr3
  refine ⟨a1, a2, a3, ?_, ?_, ?_⟩
  · rw [a1]; exact get_stats_count_one remote s d? hv1
  · rw [a2]; exact get_sleep_count_one remote s d? hv2
  · rw [a3]; exact get_steps_count_one remote s d? hv3

/-- Claim C4 witness: a fresh instance against a remote whose endpoints
all raise. -/
theorem fetch_error_leaves_cache_unchanged_witness :
    get_stats failingRemote (State.init "2024-06-01") none =
      (Except.error "stats down:2024-06-01", State.init "2024-06-01", 1) ∧
    get_sleep_data failingRemote (State.init "2024-06-01") none =
      (Except.error "sleep down:2024-06-01", State.init "2024-06-01", 1) ∧
    get_steps_data failingRemote (State.init "2024-06-01") none =
      (Except.error "steps down:2024-06-01", State.init "2024-06-01", 1) ∧
    (get_stats failingRemote
      (get_stats failingRemote (State.init "2024-06-01") none).2.1 none).2.2 = 1 ∧
    (get_sleep_data failingRemote
      (get_sleep_data failingRemote (State.init "2024-06-01") none).2.1 none).2.2 = 1 ∧
    (get_steps_data failingRemote
      (get_steps_data failingRemote (State.init "2024-06-01") none).2.1 none).2.2 = 1 :=
  fetch_error_leaves_cache_unchanged failingRemote (State.init "2024-06-01") none
    "stats down:2024-06-01" "sleep down:2024-06-01" "steps down:2024-06-01"
    rfl rfl rfl rfl rfl rfl

set_option maxRecDepth 8192 in
/-- Claim C8: when either credential variable is absent from the process
environment, the first access to the `client` property raises the
configuration error (whose message names `GARMIN_EMAIL` and
`GARMIN_PASSWORD`), performs no remote-facing effect at all (no connection
constructed, no login handshake), and memoizes nothing. -/
theorem client_missing_credentials_fails_without_handshake
    (env : ClientEnv) (lr : Except String Unit)
    (h : env.garmin_email = none ∨ env.garmin_password = none) :
    clientAccess env lr { memo := none } =
      (Except.error credentialsErrorMessage, { memo := none }, []) ∧
    "GARMIN_EMAIL".data <:+: credentialsErrorMessage.data ∧
    "GARMIN_PASSWORD".data <:+: credentialsErrorMessage.data := by
  refine ⟨?_, by decide, by decide⟩
  rcases h with h | h <;> simp [clientAccess, computeClient, truthy, h]

/-- Claim C8 witness: the password variable is set but the email variable
is absent. -/
theorem client_missing_credentials_fails_without_handshake_witness :
    clientAccess ({ garmin_email := none, garmin_password := some "hunter2", garth_home := none }) (Except.ok ()) { memo := none } =
      (Except.error credentialsErrorMessage, { memo := none }, []) ∧
    "GARMIN_EMAIL".data <:+: credentialsErrorMessage.data ∧
    "GARMIN_PASSWORD".data <:+: credentialsErrorMessage.data :=
  client_missing_credentials_fails_without_handshake
    ({ garmin_email := none, garmin_password := some "hunter2", garth_home := none })
    (Except.ok ()) (Or.inl rfl)

/-- Claim C9: with valid credentials and a successful handshake, the first
access to the `client` property constructs the connection, performs the
login handshake, persists the session token to the `GARTH_HOME` path, and
memoizes the client; every subsequent access returns the very same client
with no further remote-facing effects (the handshake is not repeated). -/
theorem client_memoized_on_first_access
    (env : ClientEnv) (e p : String)
    (he : env.garmin_email = some e) (hep : e.isEmpty = false)
    (hp : env.garmin_password = some p) (hpp : p.isEmpty = false) :
    clientAccess env (Except.ok ()) { memo := none } =
      (Except.ok { email := e, password := p },
       { memo := some { email := e, password := p } },
       [ClientEvent.construct e p, ClientEvent.login,
        ClientEvent.dump (env.garth_home.getD "~/.garth")]) ∧
    (∀ c : Garmin, clientAccess env (Except.ok ()) { memo := some c } =
      (Except.ok c, { memo := some c }, [])) := by
  constructor
  · simp [clientAccess, computeClient, truthy, he, hp, hep, hpp]
  · intro c; rfl

/-- Claim C9 witness: concrete credentials; first access runs the
handshake and dumps the token, the repeat access serves the memo with no
events. -/
theorem client_memoized_on_first_access_witness :
    clientAccess demoEnv (Except.ok ()) { memo := none } =
      (Except.ok demoGarmin, { memo := some demoGarmin },
       [ClientEvent.construct "user@example.com" "hunter2", ClientEvent.login,
        ClientEvent.dump "~/.garth"]) ∧
    clientAccess demoEnv (Except.ok ()) { memo := some demoGarmin } =
      (Except.ok demoGarmin, { memo := some demoGarmin }, []) := by
  have h := client_memoized_on_first_access demoEnv "user@example.com" "hunter2"
    rfl rfl rfl rfl
  exact ⟨h.1, h.2 demoGarmin⟩

/-- Claim C10: the three payload slots share one cache-date field.  Every
successful fetch of any kind stamps that field with its own date; an entry
of any kind can only be considered valid for the shared cache date, so at
any time at most one date is considered cached across all kinds; and a
successful stats fetch for D2 makes a sleep entry that was cached for D1
invalid — the sleep slot still holds D1's payload, yet the next sleep
access for D1 issues a fresh remote fetch. -/
theorem shared_cache_date_invalidates_other_kinds {ε α : Type}
    (remote : Remote ε α) (s : State α) (d1 d2 : String) (v : α)
    (hsleep : s.is_sleep_cache_valid d1 = true)
    (hne : d2 ≠ d1)
    (hr : remote.get_stats d2 = Except.ok v) :
    (∀ (s0 : State α) (d? : Option String) (r : α),
      (get_stats remote s0 d?).2.2 = 1 → (get_stats remote s0 d?).1 = Except.ok r →
      (get_stats remote s0 d?).2.1.cache_date = some (d?.getD s0.date_str)) ∧
    (∀ (s0 : State α) (d? : Option String) (r : α),
      (get_sleep_data remote s0 d?).2.2 = 1 →
      (get_sleep_data remote s0 d?).1 = Except.ok r →
      (get_sleep_data remote s0 d?).2.1.cache_date = some (d?.getD s0.date_str)) ∧
    (∀ (s0 : State α) (d? : Option String) (r : α),
      (get_steps_data remote s0 d?).2.2 = 1 →
      (get_steps_data remote s0 d?).1 = Except.ok r →
      (get_steps_data remote s0 d?).2.1.cache_date = some (d?.getD s0.date_str)) ∧
    (∀ d : String, s.is_cache_valid d = true → s.cache_date = some d) ∧
    (∀ d : String, s.is_sleep_cache_valid d = true → s.cache_date = some d) ∧
    (∀ d : String, s.is_steps_cache_valid d = true → s.cache_date = some d) ∧
    (get_stats remote s (some d2)).2.1.cache_date = some d2 ∧
    (get_stats remote s (some d2)).2.2 = 1 ∧
    (get_stats remote s (some d2)).2.1.is_sleep_cache_valid d1 = false ∧
    (get_stats remote s (some d2)).2.1.sleep_cache = s.sleep_cache ∧
    s.sleep_cache.isSome = true ∧
    (get_sleep_data remote (get_stats remote s (some d2)).2.1 (some d1)).2.2 = 1 := by
  have hcd : s.cache_date = some d1 := by
    simp only [State.is_sleep_cache_valid, Bool.and_eq_true, beq_iff_eq] at hsleep
    exact hsleep.1
  have hv2 : s.is_cache_valid ((some d2).getD s.date_str) = false := by
    simp [State.is_cache_valid, hcd, hne.symm]
  have hf := get_stats_fetch remote s (some d2) hv2 hr
  refine ⟨fun s0 d? r hc hok => get_stats_success_sets_cache_date remote s0 d? hc hok,
    fun s0 d? r hc hok => get_sleep_success_sets_cache_date remote s0 d? hc hok,
    fun s0 d? r hc hok => get_steps_success_sets_cache_date remote s0 d? hc hok,
    ?_, ?_, ?_, ?_, ?_, ?_, ?_, sleep_isSome_of_valid hsleep, ?_⟩
  · intro d hd
    simp only [State.is_cache_valid, Bool.and_eq_true, beq_iff_eq] at hd
    exact hd.1
  · intro d hd
    simp only [State.is_sleep_cache_valid, Bool.and_eq_true, beq_iff_eq] at hd
    exact hd.1
  · intro d hd
    simp only [State.is_steps_cache_valid, Bool.and_eq_true, beq_iff_eq] at hd
    exact hd.1
  · rw [hf]; rfl
  · rw [hf]
  · rw [hf]; simp [State.is_sleep_cache_valid, hne]
  · rw [hf]
  · rw [hf]
    exact get_sleep_count_one remote _ (some d1)
      (by simp [State.is_sleep_cache_valid, hne])

/-- Claim C10 witness: sleep cached for 2024-01-01, then a stats fetch for
2024-01-02 against the demo remote: the shared cache date becomes
2024-01-02, the sleep entry for 2024-01-01 is no longer valid though its
payload is untouched, and the next sleep access for 2024-01-01 issues a
fresh remote fetch. -/
theorem shared_cache_date_invalidates_other_kinds_witness :
    (get_stats demoRemote
        (State.mk "2024-01-01" none (some "sleep:2024-01-01") none
          (some "2024-01-01")) (some "2024-01-02")).2.1.cache_date =
      some "2024-01-02" ∧
    (get_stats demoRemote
        (State.mk "2024-01-01" none (some "sleep:2024-01-01") none
          (some "2024-01-01")) (some "2024-01-02")).2.2 = 1 ∧
    (get_stats demoRemote
        (State.mk "2024-01-01" none (some "sleep:2024-01-01") none
          (some "2024-01-01")) (some "2024-01-02")).2.1.is_sleep_cache_valid
        "2024-01-01" = false ∧
    (get_stats demoRemote
        (State.mk "2024-01-01" none (some "sleep:2024-01-01") none
          (some "2024-01-01")) (some "2024-01-02")).2.1.sleep_cache =
      some "sleep:2024-01-01" ∧
    (get_sleep_data demoRemote
        (get_stats demoRemote
          (State.mk "2024-01-01" none (some "sleep:2024-01-01") none
            (some "2024-01-01")) (some "2024-01-02")).2.1
        (some "2024-01-01")).2.2 = 1 := by
  obtain ⟨-, -, -, -, -, -, h7, h8, h9, h10, -, h12⟩ :=
    shared_cache_date_invalidates_other_kinds demoRemote
      (State.mk "2024-01-01" none (some "sleep:2024-01-01") none (some "2024-01-01"))
      "2024-01-01" "2024-01-02" "stats:2024-01-02" rfl (by decide) rfl
  exact ⟨h7, h8, h9, h10, h12⟩

end GarminStats
